import Mathlib

/-!
# Parselmouth bindings: enum string constructor, binding lists, `ilaver_`

A shallow embedding of `src/parselmouth/Parselmouth.h` and of
`praat/external/clapack/lapack/ilaver.cpp`, with the properties proved about them.

Strings are modelled as Lean strings (Unicode text); the `std::string` handed to the
constructor is the UTF-8 encoding of a Python `str`.  The Python method `str.upper` is a
parameter `upper` of the definitions that call it.  The `__members__` dictionary of an enum is
the list of its items in iteration order, which is the order of declaration.
-/

namespace parselmouth

/-! ## Python objects as pybind11 sees them -/

/-- Exceptions that reach the Python caller. -/
inductive PyError where
  | value_error (msg : String)
  | type_error
  deriving DecidableEq, Repr

deriving instance DecidableEq for Except

/-- The `pybind11::object` a call such as `a.attr("__eq__")(b)` returns: a reference to a Python
object.  A successful call holds a real object (for `str.__eq__` one of the two singletons
`True` and `False`); `nullptr` is the empty reference. -/
inductive object where
  | nullptr
  | Py_True
  | Py_False
  deriving DecidableEq, Repr

/-- Conversion of a `pybind11::object` in the condition of an `if`.  The only conversion to
`bool` the class has is `handle::operator bool`, `return m_ptr != nullptr;`: it tells whether
the reference holds an object, not whether that object is truthy. -/
def object.operator_bool : object → Bool
  | .nullptr => false
  | .Py_True => true
  | .Py_False => true

/-- The truth value of a Python object (`PyObject_IsTrue`, `cast<bool>()`), which the
condition on line 44 does not take. -/
def object.is_true : object → Bool
  | .Py_True => true
  | _ => false

/-- The call `a.attr("__eq__")(b)` on two Python strings. -/
def str__eq__ (a b : String) : object :=
  if a = b then object.Py_True else object.Py_False

/-- The pair `values.contains(key)` / `values[key]` on the items of a dictionary: `some v` when
the key is present with value `v`, `none` when `contains` answers false. -/
def dict_getitem {T : Type} : List (String × T) → String → Option T
  | [], _ => none
  | item :: rest, key => if item.1 = key then some item.2 else dict_getitem rest key

/-! ## `make_implicitly_convertible_from_string` -/

/-- The text of the `value_error` thrown on line 51. -/
def invalid_value_message (value name : String) : String :=
  "\"" ++ value ++ "\" is not a valid value for enum type " ++ name

/-- The loop of lines 43 to 48 over the items of `values`: the first item whose test on line 44
passes is the one constructed; `none` when the loop runs to its end. -/
def ignoreCase_loop {T : Type} (upper : String → String) (upperStrValue : String) :
    List (String × T) → Option T
  | [] => none
  | item :: rest =>
    if (str__eq__ (upper item.1) upperStrValue).operator_bool then some item.2
    else ignoreCase_loop upper upperStrValue rest

/-- The body of the lambda registered as `__init__` (lines 31 to 52): `values` are the items of
`__members__`, `name` is `__name__`, and the result is the constructed enum value or the
exception thrown. -/
def string_constructor {T : Type} (upper : String → String) (values : List (String × T))
    (name : String) (ignoreCase : Bool) (value : String) : Except PyError T :=
  match dict_getitem values value with
  | some v => .ok v
  | none =>
    if ignoreCase then
      match ignoreCase_loop upper (upper value) values with
      | some v => .ok v
      | none => .error (.value_error (invalid_value_message value name))
    else .error (.value_error (invalid_value_message value name))

/-- A `pybind11::enum_<Type>` as far as this header uses it: its `__name__`, the items of
`__members__`, the `__init__` overloads taking a string (each the `ignoreCase` its lambda
captured, in order of registration) and whether `std::string` converts implicitly to it. -/
structure enum_ (T : Type) where
  name : String
  members : List (String × T)
  string_inits : List Bool
  implicitly_convertible : Bool

/-- The function of lines 27 to 54: it registers the lambda as an `__init__` overload and
declares the implicit conversion.  Nothing in it reads the members and no path throws. -/
def make_implicitly_convertible_from_string {T : Type} (enumType : enum_ T)
    (ignoreCase : Bool) : Except PyError (enum_ T) :=
  .ok { enumType with
        string_inits := enumType.string_inits ++ [ignoreCase]
        implicitly_convertible := true }

/-- Calling the enum type with one string from Python.  The overloads are tried in order of
registration and an exception thrown by the body of one ends the call, so the first string
overload decides; without one the call is a `TypeError`.  The lambda reads `__members__` and
`__name__` when it is called. -/
def construct_from_string {T : Type} (upper : String → String) (e : enum_ T)
    (value : String) : Except PyError T :=
  match e.string_inits with
  | [] => .error .type_error
  | ignoreCase :: _ => string_constructor upper e.members e.name ignoreCase value

/-- `BINDING_CONSTRUCTOR(Type, #Type)` of an `ENUM_BINDING` (lines 65, 66, 70): the base
`enum_` is constructed in the scope under the name `#Type`; it has no member yet (they are
added by `init()`), and nothing is checked. -/
def PRAAT_ENUM_BINDING (T : Type) (Type_name : String) : Except PyError (enum_ T) :=
  .ok { name := Type_name, members := [], string_inits := [], implicitly_convertible := false }

/-- An enum declared under the name `N` once its `__members__` holds the items `values` and
before any string constructor is installed. -/
def enum_with_members {T : Type} (N : String) (values : List (String × T)) : enum_ T :=
  { name := N, members := values, string_inits := [], implicitly_convertible := false }

/-- The scenario the properties speak of: on the enum named `N` with members `values` the
string constructor is installed with `ignoreCase`, then the enum is constructed from `value`. -/
def construct_enum {T : Type} (upper : String → String) (N : String)
    (values : List (String × T)) (ignoreCase : Bool) (value : String) : Except PyError T :=
  match make_implicitly_convertible_from_string (enum_with_members N values) ignoreCase with
  | .ok e => construct_from_string upper e value
  | .error err => .error err

/-- The labels of a member table, in order of declaration. -/
def labels {T : Type} (values : List (String × T)) : List String :=
  values.map Prod.fst

/-- Upper-casing of the ASCII letters, which is what Python's `str.upper` does on a string of
ASCII characters; used for the concrete inputs only. -/
def ascii_upper (s : String) : String :=
  String.mk (s.data.map Char.toUpper)

/-- The constructor as the specification words it, for comparison with `string_constructor`:
an exact match first; failing that and with `ignoreCase`, the first label in declaration order
whose upper-cased form equals the upper-cased input; failing that, the value error. -/
def string_constructor_as_specified {T : Type} (upper : String → String)
    (values : List (String × T)) (name : String) (ignoreCase : Bool) (value : String) :
    Except PyError T :=
  match dict_getitem values value with
  | some v => .ok v
  | none =>
    match (if ignoreCase then values.find? (fun item => upper item.1 == upper value)
           else none) with
    | some item => .ok item.2
    | none => .error (.value_error (invalid_value_message value name))

/-- Modelled from the spec: the enumerators of `kSound_windowShape` are declared in Praat's
headers and registered in a source file that is not at hand; the scenario gives the labels
`RECTANGULAR`, `HANNING`, `HAMMING` in this order. -/
inductive kSound_windowShape where
  | RECTANGULAR
  | HANNING
  | HAMMING
  deriving DecidableEq, Repr

/-- Modelled from the spec: the member table of `WindowShape` in the scenario, each label with
the enumerator of its name. -/
def WindowShape_members : List (String × kSound_windowShape) :=
  [("RECTANGULAR", .RECTANGULAR), ("HANNING", .HANNING), ("HAMMING", .HAMMING)]

/-! ## The binding lists (lines 57 to 132) -/

/-- The names of `PRAAT_CLASSES` (lines 84 to 95). -/
inductive PraatClass where
  | Thing | Data | Vector | Sound | Spectrum | Spectrogram | Pitch | Intensity
  | Harmonicity | Formant | MFCC
  deriving DecidableEq, Repr

/-- The names of `PRAAT_ENUMS` (lines 97 to 101). -/
inductive PraatEnum where
  | Interpolation | WindowShape | AmplitudeScaling | SignalOutsideTimeDomain
  deriving DecidableEq, Repr

/-- A type a `Binding` is specialised for. -/
inductive BoundType where
  | enumeration (e : PraatEnum)
  | class_ (c : PraatClass)
  deriving DecidableEq, Repr

def PRAAT_CLASSES : List PraatClass :=
  [.Thing, .Data, .Vector, .Sound, .Spectrum, .Spectrogram, .Pitch, .Intensity,
   .Harmonicity, .Formant, .MFCC]

def PRAAT_ENUMS : List PraatEnum :=
  [.Interpolation, .WindowShape, .AmplitudeScaling, .SignalOutsideTimeDomain]

/-- The type list of `using PraatBindings = Bindings<PRAAT_ENUMS, PRAAT_CLASSES>;`
(line 132). -/
def PraatBindings : List BoundType :=
  PRAAT_ENUMS.map BoundType.enumeration ++ PRAAT_CLASSES.map BoundType.class_

/-- The C++ types the binding of a class names as template arguments: `struct##Type`,
`auto##Type` and `Type##_Parent`.  (`structData`, `autoData`, `Data_Parent` are the aliases of
lines 78 to 81.) -/
inductive CppType where
  | struct_ (c : PraatClass)
  | auto_ (c : PraatClass)
  | Parent_ (c : PraatClass)
  deriving DecidableEq, Repr

/-- `PRAAT_CLASS_BINDING(Type)` (line 68): the template arguments handed to `CLASS_BINDING`. -/
def PRAAT_CLASS_BINDING (t : PraatClass) : List CppType :=
  [.struct_ t, .auto_ t, .Parent_ t]

/-- `PRAAT_CLASS_BINDING_BASE(Type, Base)` (line 69). -/
def PRAAT_CLASS_BINDING_BASE (t base : PraatClass) : List CppType :=
  [.struct_ t, .auto_ t, .struct_ base]

/-- The template arguments of `ClassBinding<...>`, the base of `Binding<Type>`, for each class
(lines 104 to 116). -/
def Binding_args : PraatClass → List CppType
  | .Thing => [.struct_ .Thing, .auto_ .Thing]
  | .Data => PRAAT_CLASS_BINDING .Data
  | .Vector => PRAAT_CLASS_BINDING_BASE .Vector .Data
  | .Sound => PRAAT_CLASS_BINDING .Sound
  | .Spectrum => PRAAT_CLASS_BINDING_BASE .Spectrum .Data
  | .Spectrogram => PRAAT_CLASS_BINDING_BASE .Spectrogram .Data
  | .Pitch => PRAAT_CLASS_BINDING_BASE .Pitch .Data
  | .Intensity => PRAAT_CLASS_BINDING .Intensity
  | .Harmonicity => PRAAT_CLASS_BINDING .Harmonicity
  | .Formant => PRAAT_CLASS_BINDING_BASE .Formant .Data
  | .MFCC => PRAAT_CLASS_BINDING_BASE .MFCC .Data

/-- The holder types: `PYBIND11_DECLARE_HOLDER_TYPE(T, _Thing_auto<T>)` (line 21), that is the
`auto##Type` arguments. -/
def CppType.is_holder : CppType → Bool
  | .auto_ _ => true
  | _ => false

/-- The parents `pybind11::class_<type, options...>` records: the options that are not the
holder. -/
def bases (args : List CppType) : List CppType :=
  (args.drop 1).filter (fun a => !a.is_holder)

/-- The parents recorded for a class, the `Type##_Parent` names resolved by `Parent`, which
stands for the typedefs of Praat's headers. -/
def direct_bases (Parent : PraatClass → CppType) (c : PraatClass) : List CppType :=
  (bases (Binding_args c)).map (fun b =>
    match b with
    | .Parent_ p => Parent p
    | t => t)

/-- The subtype query of the host runtime over the recorded parents: `t` is `target`, or one of
the parents of `t` is a subtype of `target`; `fuel` bounds the length of the chain. -/
def issubclass (Parent : PraatClass → CppType) : Nat → CppType → CppType → Bool
  | 0, t, target => t == target
  | fuel + 1, t, target =>
    t == target ||
      match t with
      | .struct_ c => (direct_bases Parent c).any (fun b => issubclass Parent fuel b target)
      | _ => false

/-! ## The registrar -/

/-- What the registrar does to one descriptor. -/
inductive Event where
  | declare (d : BoundType)
  | init (d : BoundType)
  deriving DecidableEq, Repr

/-- Modelled from the spec: `Bindings.h`, which defines `Bindings<...>`, is not at hand.
`declareAll()` visits every descriptor of the list once, in list order, and declares it (the
`Binding` constructor of lines 64 to 66). -/
def declareAll (ds : List BoundType) : List Event :=
  ds.map Event.declare

/-- Modelled from the spec: `initAll()` of the absent `Bindings.h` visits every descriptor of
the list once and calls its `init()`. -/
def initAll (ds : List BoundType) : List Event :=
  ds.map Event.init

/-- Modelled from the spec: `registerAll()` of the absent `Bindings.h` runs `declareAll()` and,
once it has returned, `initAll()`; the result is the sequence of events in order. -/
def registerAll (ds : List BoundType) : List Event :=
  declareAll ds ++ initAll ds

end parselmouth

/-! ## `ilaver_` -/

namespace clapack

/-- The memory the pointers of a call point into: the `integer` stored at each address. -/
abbrev Memory := Nat → Int

/-- The assignment `*p = v`. -/
def store (m : Memory) (p : Nat) (v : Int) : Memory :=
  fun a => if a = p then v else m a

/-- The subroutine of `ilaver.cpp`: the three assignments of lines 32 to 34 in order, then
`return 0`.  The result is the returned status and the memory after the call. -/
def ilaver_ (m : Memory) (vers_major__ vers_minor__ vers_patch__ : Nat) : Int × Memory :=
  let m1 := store m vers_major__ 3
  let m2 := store m1 vers_minor__ 1
  let m3 := store m2 vers_patch__ 1
  (0, m3)

end clapack

/-! ## The enum string constructor: lemmas -/

namespace parselmouth

theorem dict_getitem_of_mem {T : Type} (values : List (String × T)) (S : String) (v : T)
    (huniq : (labels values).Nodup) (hmem : (S, v) ∈ values) :
    dict_getitem values S = some v := by
  induction values with
  | nil => simp at hmem
  | cons item rest ih =>
    simp only [labels, List.map_cons, List.nodup_cons] at huniq
    rcases List.mem_cons.mp hmem with h | h
    · subst h
      simp [dict_getitem]
    · have hne : item.1 ≠ S := by
        intro heq
        apply huniq.1
        rw [heq]
        exact List.mem_map.mpr ⟨(S, v), h, rfl⟩
      simp [dict_getitem, hne, ih huniq.2 h]

theorem dict_getitem_eq_none {T : Type} (values : List (String × T)) (S : String)
    (h : S ∉ labels values) : dict_getitem values S = none := by
  induction values with
  | nil => rfl
  | cons item rest ih =>
    simp only [labels, List.map_cons, List.mem_cons, not_or] at h
    simp [dict_getitem, Ne.symm h.1, ih h.2]

/-- The truth value of the comparison is the equality of the two strings; it is the
conversion in the condition that loses it. -/
theorem is_true_str__eq__ (a b : String) : (str__eq__ a b).is_true = decide (a = b) := by
  unfold str__eq__
  split <;> simp_all [object.is_true]

/-- The test of line 44 passes whatever the two strings are: the call returns `True` or
`False`, and either is an object. -/
theorem operator_bool_str__eq__ (a b : String) : (str__eq__ a b).operator_bool = true := by
  unfold str__eq__
  split <;> rfl

/-- The loop of lines 43 to 48 therefore stops at the first item of the dictionary. -/
theorem ignoreCase_loop_eq_head {T : Type} (upper : String → String) (u : String)
    (values : List (String × T)) :
    ignoreCase_loop upper u values = values.head?.map Prod.snd := by
  cases values with
  | nil => rfl
  | cons item rest => simp [ignoreCase_loop, operator_bool_str__eq__]

theorem construct_enum_eq {T : Type} (upper : String → String) (N : String)
    (values : List (String × T)) (ignoreCase : Bool) (S : String) :
    construct_enum upper N values ignoreCase S
      = string_constructor upper values N ignoreCase S := rfl

/-- With `ignoreCase` off a string that is no label is refused with the message of line 51. -/
theorem value_error_of_not_ignoreCase {T : Type} (upper : String → String) (N : String)
    (values : List (String × T)) (S : String) (hS : S ∉ labels values) :
    construct_enum upper N values false S
      = .error (.value_error (invalid_value_message S N)) := by
  simp [construct_enum_eq, string_constructor, dict_getitem_eq_none values S hS]

/-- With `ignoreCase` on a string that is no label constructs the first member. -/
theorem first_member_of_ignoreCase {T : Type} (upper : String → String) (N : String)
    (item : String × T) (rest : List (String × T)) (S : String)
    (hS : S ∉ labels (item :: rest)) :
    construct_enum upper N (item :: rest) true S = .ok item.2 := by
  simp [construct_enum_eq, string_constructor, dict_getitem_eq_none _ S hS,
    ignoreCase_loop_eq_head]

/-! ## The enum string constructor: properties -/

/-- C1: for a member table with unique labels, a declared label `S` with declared value `v`
and either setting of `ignoreCase`, the installed string constructor called with `S` yields
exactly `v`, whatever labels were declared before `S`. -/
theorem exact_label_constructs_declared_value {T : Type} (upper : String → String)
    (N : String) (values : List (String × T)) (ignoreCase : Bool) (S : String) (v : T)
    (huniq : (labels values).Nodup) (hmem : (S, v) ∈ values) :
    construct_enum upper N values ignoreCase S = .ok v := by
  simp [construct_enum_eq, string_constructor, dict_getitem_of_mem values S v huniq hmem]

theorem exact_label_constructs_declared_value_witness :
    (labels [("abc", (0 : Nat)), ("ABC", 1)]).Nodup
      ∧ ("ABC", 1) ∈ [("abc", (0 : Nat)), ("ABC", 1)]
      ∧ ascii_upper "abc" = ascii_upper "ABC"
      ∧ construct_enum ascii_upper "E" [("abc", (0 : Nat)), ("ABC", 1)] true "ABC" = .ok 1 :=
  ⟨by decide, by decide, by decide,
    exact_label_constructs_declared_value ascii_upper "E" [("abc", (0 : Nat)), ("ABC", 1)]
      true "ABC" 1 (by decide) (by decide)⟩

/-- C2: at the members `INTEGRAL`, `SUM` of an enum named `AmplitudeScaling`, with
`ignoreCase` on, the string `triangular` equals no label, exactly or after upper-casing; the
installed constructor nevertheless constructs the first member, where the constructor as
specified raises the value error that quotes the string and names the enum. -/
theorem unmatched_string_constructs_first_member :
    "triangular" ∉ labels [("INTEGRAL", (0 : Nat)), ("SUM", 1)]
      ∧ (∀ label ∈ labels [("INTEGRAL", (0 : Nat)), ("SUM", 1)],
          ascii_upper label ≠ ascii_upper "triangular")
      ∧ construct_enum ascii_upper "AmplitudeScaling" [("INTEGRAL", (0 : Nat)), ("SUM", 1)]
          true "triangular" = .ok 0
      ∧ string_constructor_as_specified ascii_upper [("INTEGRAL", (0 : Nat)), ("SUM", 1)]
          "AmplitudeScaling" true "triangular"
          = .error (.value_error
              "\"triangular\" is not a valid value for enum type AmplitudeScaling") := by
  refine ⟨by decide, by decide, by decide, by decide⟩

/-- C3: at the members `HANNING`, `HAMMING`, whose labels are unique and stay distinct after
upper-casing, with `ignoreCase` on, the string `hamming` is a case-permutation of the declared
label `HAMMING`; constructing from `HAMMING` yields its value, but constructing from `hamming`
yields the value of `HANNING`, the first member, where the constructor as specified yields the
value of `HAMMING`. -/
theorem case_permutation_constructs_first_member :
    (labels [("HANNING", (1 : Nat)), ("HAMMING", 2)]).Nodup
      ∧ "HAMMING" ∈ labels [("HANNING", (1 : Nat)), ("HAMMING", 2)]
      ∧ ascii_upper "hamming" = ascii_upper "HAMMING"
      ∧ ascii_upper "HANNING" ≠ ascii_upper "HAMMING"
      ∧ construct_enum ascii_upper "WindowShape" [("HANNING", (1 : Nat)), ("HAMMING", 2)] true
          "HAMMING" = .ok 2
      ∧ construct_enum ascii_upper "WindowShape" [("HANNING", (1 : Nat)), ("HAMMING", 2)] true
          "hamming" = .ok 1
      ∧ string_constructor_as_specified ascii_upper [("HANNING", (1 : Nat)), ("HAMMING", 2)]
          "WindowShape" true "hamming" = .ok 2 := by
  refine ⟨by decide, by decide, by decide, by decide, by decide, by decide, by decide⟩

/-- Exact match comes first and the scan follows the order of declaration: with the labels
`abc`, `ABC` declared in this order and `ignoreCase` on, `Abc` equals both after upper-casing;
constructing from `Abc` yields the value of `abc`, and so does the constructor as specified,
while constructing from `ABC` yields the value of `ABC`. -/
theorem colliding_labels_first_declared_wins :
    (labels [("abc", (0 : Nat)), ("ABC", 1)]).Nodup
      ∧ ascii_upper "Abc" = ascii_upper "ABC"
      ∧ construct_enum ascii_upper "E" [("abc", (0 : Nat)), ("ABC", 1)] true "Abc" = .ok 0
      ∧ string_constructor_as_specified ascii_upper [("abc", (0 : Nat)), ("ABC", 1)] "E" true
          "Abc" = .ok 0
      ∧ construct_enum ascii_upper "E" [("abc", (0 : Nat)), ("ABC", 1)] true "ABC" = .ok 1 := by
  refine ⟨by decide, by decide, by decide, by decide, by decide⟩

/-- C4: for the enum named `WindowShape` with the labels `RECTANGULAR`, `HANNING`, `HAMMING`
and `ignoreCase` on, the installed constructor yields `RECTANGULAR` from `hanning` and from
`triangular` alike, whatever `upper` computes; the constructor as specified yields `HANNING`
from the first and raises the value error naming `WindowShape` from the second. -/
theorem WindowShape_constructs_first_member :
    (∀ upper : String → String,
        construct_enum upper "WindowShape" WindowShape_members true "hanning"
            = .ok kSound_windowShape.RECTANGULAR
          ∧ construct_enum upper "WindowShape" WindowShape_members true "triangular"
            = .ok kSound_windowShape.RECTANGULAR)
      ∧ string_constructor_as_specified ascii_upper WindowShape_members "WindowShape" true
          "hanning" = .ok kSound_windowShape.HANNING
      ∧ string_constructor_as_specified ascii_upper WindowShape_members "WindowShape" true
          "triangular"
          = .error (.value_error "\"triangular\" is not a valid value for enum type WindowShape")
      := by
  refine ⟨fun upper => ⟨?_, ?_⟩, by decide, by decide⟩
  · exact first_member_of_ignoreCase upper "WindowShape" _ _ "hanning" (by decide)
  · exact first_member_of_ignoreCase upper "WindowShape" _ _ "triangular" (by decide)

/-- C9: at the members `INTEGRAL`, `SUM`, `Sum` with `ignoreCase` on, the string `sum` equals
no label exactly and equals `SUM` and `Sum` after upper-casing; the installed constructor
yields the value of `INTEGRAL`, the first member, where the earliest label that matches
case-insensitively is `SUM`. -/
theorem first_member_wins_over_first_match :
    "sum" ∉ labels [("INTEGRAL", (0 : Nat)), ("SUM", 1), ("Sum", 2)]
      ∧ (labels [("INTEGRAL", (0 : Nat)), ("SUM", 1), ("Sum", 2)]).filter
          (fun label => ascii_upper label == ascii_upper "sum") = ["SUM", "Sum"]
      ∧ construct_enum ascii_upper "AmplitudeScaling"
          [("INTEGRAL", (0 : Nat)), ("SUM", 1), ("Sum", 2)] true "sum" = .ok 0
      ∧ string_constructor_as_specified ascii_upper
          [("INTEGRAL", (0 : Nat)), ("SUM", 1), ("Sum", 2)] "AmplitudeScaling" true "sum"
          = .ok 1 := by
  refine ⟨by decide, by decide, by decide, by decide⟩

/-- C6, as stated, fails: an enum without members is declared, and its string constructor
installed, without any error. -/
theorem empty_enum_declared_and_installed :
    ∃ e0 e : enum_ Nat, PRAAT_ENUM_BINDING Nat "Empty" = .ok e0 ∧ e0.members = []
      ∧ make_implicitly_convertible_from_string e0 false = .ok e
      ∧ e.members = [] ∧ e.string_inits = [false] :=
  ⟨_, _, rfl, rfl, rfl, rfl, rfl⟩

/-- C6, amended: an enum without members is accepted when it is declared and when its string
constructor is installed; it is at construction that it is refused: every string handed to
the constructor raises the value error that quotes the string and names the enum. -/
theorem empty_enum_refused_at_construction (T : Type) (upper : String → String) (N : String)
    (ignoreCase : Bool) (S : String) :
    ∃ e0 e : enum_ T, PRAAT_ENUM_BINDING T N = .ok e0 ∧ e0.members = []
      ∧ make_implicitly_convertible_from_string e0 ignoreCase = .ok e
      ∧ construct_from_string upper e S
          = .error (.value_error (invalid_value_message S N)) := by
  refine ⟨_, _, rfl, rfl, rfl, ?_⟩
  cases ignoreCase <;> rfl

/-! ## The binding lists and the registrar: properties -/

theorem registerAll_getElem?_lt (ds : List BoundType) (i : Nat) (h : i < ds.length) :
    (registerAll ds)[i]? = (ds[i]?).map Event.declare := by
  simp [registerAll, declareAll, List.getElem?_append_left, h]

theorem declare_mem_take_registerAll (ds : List BoundType) (d : BoundType) (hd : d ∈ ds)
    (i : Nat) (h : ds.length ≤ i) : Event.declare d ∈ (registerAll ds).take i := by
  have hlen : (declareAll ds).length ≤ i := by simpa [declareAll] using h
  rw [registerAll, List.take_append_eq_append_take, List.take_of_length_le hlen]
  exact List.mem_append_left _ (List.mem_map.mpr ⟨d, hd, rfl⟩)

theorem init_index_ge_length (ds : List BoundType) (i : Nat) (d : BoundType)
    (h : (registerAll ds)[i]? = some (Event.init d)) : ds.length ≤ i := by
  by_contra hlt
  rw [registerAll_getElem?_lt ds i (Nat.lt_of_not_le hlt)] at h
  cases hget : ds[i]? with
  | none => simp [hget] at h
  | some x => simp [hget] at h

theorem mem_PraatBindings (d : BoundType) : d ∈ PraatBindings := by
  cases d with
  | enumeration e => cases e <;> decide
  | class_ c => cases c <;> decide

/-- C7: in the run of `registerAll` over `PraatBindings`, which lists 15 descriptors, at the
moment any descriptor is initialized the declaration of every descriptor has already run, and
every descriptor is declared exactly once and initialized exactly once. -/
theorem registerAll_declares_all_before_any_init :
    PraatBindings.length = 15
      ∧ (∀ (i : Nat) (d : BoundType),
          (registerAll PraatBindings)[i]? = some (Event.init d) →
          ∀ other : BoundType, Event.declare other ∈ (registerAll PraatBindings).take i)
      ∧ (∀ d : BoundType,
          (registerAll PraatBindings).count (Event.declare d) = 1
            ∧ (registerAll PraatBindings).count (Event.init d) = 1) := by
  refine ⟨by decide, ?_, ?_⟩
  · intro i d h other
    exact declare_mem_take_registerAll PraatBindings other (mem_PraatBindings other) i
      (init_index_ge_length PraatBindings i d h)
  · intro d
    cases d with
    | enumeration e => cases e <;> decide
    | class_ c => cases c <;> decide

theorem issubclass_refl (Parent : PraatClass → CppType) (fuel : Nat) (t : CppType) :
    issubclass Parent fuel t t = true := by
  cases fuel <;> simp [issubclass]

/-- C8: every parent the bindings record for a class makes the class a subtype of that
parent; for `Vector`, `Spectrum`, `Spectrogram`, `Pitch`, `Formant` and `MFCC` the recorded
parent is `Data`; every class has at most one recorded parent, and `Thing` has none. -/
theorem recorded_parent_is_supertype (Parent : PraatClass → CppType) (fuel : Nat) :
    (∀ child : PraatClass, ∀ parent ∈ direct_bases Parent child,
        issubclass Parent (fuel + 1) (.struct_ child) parent = true)
      ∧ (∀ child ∈ [PraatClass.Vector, .Spectrum, .Spectrogram, .Pitch, .Formant, .MFCC],
          direct_bases Parent child = [.struct_ .Data]
            ∧ issubclass Parent (fuel + 1) (.struct_ child) (.struct_ .Data) = true)
      ∧ (∀ c : PraatClass, (bases (Binding_args c)).length ≤ 1
          ∧ (direct_bases Parent c).length ≤ 1)
      ∧ bases (Binding_args .Thing) = [] ∧ direct_bases Parent .Thing = [] := by
  have hedge : ∀ child : PraatClass, ∀ parent ∈ direct_bases Parent child,
      issubclass Parent (fuel + 1) (.struct_ child) parent = true := by
    intro child parent hp
    simp only [issubclass, Bool.or_eq_true, List.any_eq_true]
    exact Or.inr ⟨parent, hp, issubclass_refl Parent fuel parent⟩
  have hsix : ∀ child ∈ [PraatClass.Vector, .Spectrum, .Spectrogram, .Pitch, .Formant, .MFCC],
      direct_bases Parent child = [.struct_ .Data] := by
    intro child hc
    simp only [List.mem_cons, List.mem_singleton, List.not_mem_nil, or_false] at hc
    rcases hc with h | h | h | h | h | h <;> subst h <;> rfl
  refine ⟨hedge, ?_, ?_, rfl, rfl⟩
  · intro child hc
    refine ⟨hsix child hc, hedge child _ ?_⟩
    rw [hsix child hc]
    exact List.mem_singleton.mpr rfl
  · intro c
    cases c <;> exact ⟨by decide, by simp [direct_bases, bases, Binding_args,
      PRAAT_CLASS_BINDING, PRAAT_CLASS_BINDING_BASE, CppType.is_holder]⟩

/-- C10, as stated, fails: in `PraatBindings` the class `Thing` does not come before the enum
`Interpolation`; the enum is at position 0 and the class at position 4. -/
theorem Thing_listed_after_Interpolation :
    PraatClass.Thing ∈ PRAAT_CLASSES ∧ PraatEnum.Interpolation ∈ PRAAT_ENUMS
      ∧ PraatBindings.indexOf (.enumeration .Interpolation) = 0
      ∧ PraatBindings.indexOf (.class_ .Thing) = 4
      ∧ ¬ (PraatBindings.indexOf (.class_ .Thing)
            < PraatBindings.indexOf (.enumeration .Interpolation)) := by
  refine ⟨by decide, by decide, by decide, by decide, by decide⟩

/-- C10, amended: `PraatBindings` is the list of the 4 enum descriptors of `PRAAT_ENUMS`
followed by the 11 class descriptors of `PRAAT_CLASSES`: every enum descriptor comes before
every class descriptor. -/
theorem enums_listed_before_classes :
    PRAAT_ENUMS.length = 4 ∧ PRAAT_CLASSES.length = 11
      ∧ PraatBindings = PRAAT_ENUMS.map BoundType.enumeration
          ++ PRAAT_CLASSES.map BoundType.class_
      ∧ (∀ e ∈ PRAAT_ENUMS, ∀ c ∈ PRAAT_CLASSES,
          PraatBindings.indexOf (.enumeration e) < PraatBindings.indexOf (.class_ c)) := by
  refine ⟨by decide, by decide, rfl, by decide⟩

end parselmouth

/-! ## `ilaver_`: properties -/

namespace clapack

/-- C5: whatever the memory holds before the call, `ilaver_` called with three output
parameters, the first distinct from the other two, returns status 0 and leaves major = 3,
minor = 1, patch = 1; the status and these three values are the same for any other initial
memory, and every other address keeps its content. -/
theorem ilaver_returns_version_3_1_1 (m : Memory) (major minor patch : Nat)
    (h1 : major ≠ minor) (h2 : major ≠ patch) :
    (ilaver_ m major minor patch).1 = 0
      ∧ (ilaver_ m major minor patch).2 major = 3
      ∧ (ilaver_ m major minor patch).2 minor = 1
      ∧ (ilaver_ m major minor patch).2 patch = 1
      ∧ (∀ other : Memory,
          (ilaver_ other major minor patch).1 = (ilaver_ m major minor patch).1
            ∧ (ilaver_ other major minor patch).2 major = (ilaver_ m major minor patch).2 major
            ∧ (ilaver_ other major minor patch).2 minor = (ilaver_ m major minor patch).2 minor
            ∧ (ilaver_ other major minor patch).2 patch
                = (ilaver_ m major minor patch).2 patch)
      ∧ (∀ a : Nat, a ≠ major → a ≠ minor → a ≠ patch →
          (ilaver_ m major minor patch).2 a = m a) := by
  have hval : ∀ mem : Memory, (ilaver_ mem major minor patch).1 = 0
      ∧ (ilaver_ mem major minor patch).2 major = 3
      ∧ (ilaver_ mem major minor patch).2 minor = 1
      ∧ (ilaver_ mem major minor patch).2 patch = 1 := by
    intro mem
    refine ⟨rfl, ?_, ?_, ?_⟩
    · simp [ilaver_, store, h1, h2]
    · by_cases h3 : minor = patch <;> simp [ilaver_, store, h3]
    · simp [ilaver_, store]
  obtain ⟨a0, a1, a2, a3⟩ := hval m
  refine ⟨a0, a1, a2, a3, ?_, ?_⟩
  · intro other
    obtain ⟨b0, b1, b2, b3⟩ := hval other
    exact ⟨by rw [a0, b0], by rw [a1, b1], by rw [a2, b2], by rw [a3, b3]⟩
  · intro a ha hb hc
    simp [ilaver_, store, ha, hb, hc]

theorem ilaver_returns_version_3_1_1_witness :
    (10 : Nat) ≠ 11 ∧ (10 : Nat) ≠ 12
      ∧ (ilaver_ (fun _ => -7) 10 11 12).1 = 0
      ∧ (ilaver_ (fun _ => -7) 10 11 12).2 10 = 3
      ∧ (ilaver_ (fun _ => -7) 10 11 12).2 11 = 1
      ∧ (ilaver_ (fun _ => -7) 10 11 12).2 12 = 1
      ∧ (ilaver_ (fun _ => -7) 10 11 12).2 13 = -7 :=
  have h := ilaver_returns_version_3_1_1 (fun _ => -7) 10 11 12 (by decide) (by decide)
  ⟨by decide, by decide, h.1, h.2.1, h.2.2.1, h.2.2.2.1,
    h.2.2.2.2.2 13 (by decide) (by decide) (by decide)⟩

end clapack
